import Mathlib

/-!
Verification of the error taxonomy and propagation layer of the
wasmer_compiler crate (module wasmer_compiler::error).

The repository ships only the rustdoc sidebar declaration of the module
(src/crates/wasmer_compiler/error/sidebar-items.js), which lists the five
exported items: the enums CompileError, ParseCpuFeatureError and WasmError,
the struct MiddlewareError, and the type alias WasmResult.  The bodies of
those items are not in the repository, so the definitions below are
modelled from the specification's data model and contracts; the sidebar
data itself is embedded verbatim for the claims about the exported surface.
-/

/-- Modelled from the spec: the enumerated cause field of TranslationError
(realized as WasmError), whose bodies are missing from the repository.
Spec section 3 lists the causes: unsupported feature, invalid encoding,
invalid index, implementation limit exceeded, user-triggered abort. -/
inductive WasmErrorKind where
  | unsupportedFeature
  | invalidEncoding
  | invalidIndex
  | implLimitExceeded
  | userAbort
deriving DecidableEq

/-- Modelled from the spec: TranslationError (realized as WasmError), whose
body is missing from the repository.  Spec section 3: kind, message text,
optional byte offset into the input stream, optional module-relative index. -/
structure WasmError where
  kind : WasmErrorKind
  message : String
  offset : Option Nat
  index : Option Nat
deriving DecidableEq

/-- Modelled from the spec: the reason field of FeatureParseError (realized
as ParseCpuFeatureError), whose body is missing from the repository.  Spec
section 3: enumerated as unknown feature name or malformed syntax. -/
inductive FeatureParseReason where
  | unknownFeatureName
  | malformedSyntax
deriving DecidableEq

/-- Modelled from the spec: FeatureParseError (realized as
ParseCpuFeatureError), whose body is missing from the repository.  Spec
section 3: the exact unparsed offending substring and an enumerated reason. -/
structure ParseCpuFeatureError where
  offendingText : String
  reason : FeatureParseReason
deriving DecidableEq

/-- Modelled from the spec: MiddlewareError, whose body is missing from the
repository.  Spec section 3: pass name, message, optional nested source with
one level of wrapping only (the source is a lower-level error, never another
MiddlewareError, so the field type is the leaf WasmError). -/
structure MiddlewareError where
  name : String
  message : String
  source : Option WasmError
deriving DecidableEq

/-- Modelled from the spec: the unified CompileError enum, whose body is
missing from the repository.  Spec section 3: tagged union over
Validate(TranslationError-shaped payload), WasmError(TranslationError),
Middleware(MiddlewareError), Features(FeatureParseError), and
Resource(message). -/
inductive CompileError where
  | Validate : WasmError → CompileError
  | Wasm : WasmError → CompileError
  | Middleware : MiddlewareError → CompileError
  | Features : ParseCpuFeatureError → CompileError
  | Resource : String → CompileError
deriving DecidableEq

/-- The alias documented by the sidebar: a Result that uses WasmError as the
error type. -/
def WasmResult (T : Type) : Type := Except WasmError T

/-- Modelled from the spec: the total conversion (From impl) of a
TranslationError into CompileError at the unification boundary. -/
def CompileError.fromWasmError (w : WasmError) : CompileError :=
  CompileError.Wasm w

/-- Modelled from the spec: the total conversion of a MiddlewareError into
CompileError at the unification boundary. -/
def CompileError.fromMiddlewareError (m : MiddlewareError) : CompileError :=
  CompileError.Middleware m

/-- Modelled from the spec: the total conversion of a ParseCpuFeatureError
into CompileError at the unification boundary. -/
def CompileError.fromParseCpuFeatureError (f : ParseCpuFeatureError) : CompileError :=
  CompileError.Features f

/-- Structured accessor: the TranslationError payload of the WasmError
variant, when that variant is the populated one. -/
def CompileError.wasmPayload : CompileError → Option WasmError
  | CompileError.Wasm w => some w
  | _ => none

/-- Structured accessor: the payload of the Validate variant. -/
def CompileError.validatePayload : CompileError → Option WasmError
  | CompileError.Validate w => some w
  | _ => none

/-- Structured accessor: the payload of the Middleware variant. -/
def CompileError.middlewarePayload : CompileError → Option MiddlewareError
  | CompileError.Middleware m => some m
  | _ => none

/-- Structured accessor: the payload of the Features variant. -/
def CompileError.featuresPayload : CompileError → Option ParseCpuFeatureError
  | CompileError.Features f => some f
  | _ => none

/-- Structured accessor: the payload of the Resource variant. -/
def CompileError.resourcePayload : CompileError → Option String
  | CompileError.Resource s => some s
  | _ => none

/-- How many of the five variants report themselves as populated through the
structured accessors.  The invariant says this is always exactly one. -/
def CompileError.populatedVariants (e : CompileError) : Nat :=
  e.validatePayload.toList.length + e.wasmPayload.toList.length +
  e.middlewarePayload.toList.length + e.featuresPayload.toList.length +
  e.resourcePayload.toList.length

/-- Structured accessor: the byte offset carried by the active variant, when
its payload has one. -/
def CompileError.offsetOf : CompileError → Option Nat
  | CompileError.Validate w => w.offset
  | CompileError.Wasm w => w.offset
  | _ => none

/-- Modelled from the spec: constructing a MiddlewareError from a pass name
and a message, with no wrapped cause. -/
def MiddlewareError.new (passName msg : String) : MiddlewareError :=
  { name := passName, message := msg, source := none }

/-- The depth of the wrapped cause chain of a MiddlewareError: 0 without a
source, 1 with one.  The source is a leaf WasmError, so no deeper chain can
exist. -/
def MiddlewareError.causeDepth (e : MiddlewareError) : Nat :=
  match e.source with
  | some _ => 1
  | none => 0

/-- Modelled from the spec: the set of known CPU feature identifiers the
configuration resolver accepts; the concrete list is missing from the
repository, so a representative list of x86 feature names is used. -/
def cpuFeatureNames : List String :=
  ["sse2", "sse3", "ssse3", "popcnt", "avx", "bmi", "bmi2", "avx2", "lzcnt"]

/-- A character allowed inside a bare feature identifier. -/
def isFeatureChar (c : Char) : Bool :=
  c.isAlphanum

/-- Modelled from the spec: strip the optional enable/disable marker from a
feature selector string, leaving the substring the identifier grammar must
parse. -/
def stripFeatureMarker (s : String) : String :=
  match s.data with
  | [] => ""
  | c :: rest => if c = '+' || c = '-' then String.mk rest else String.mk (c :: rest)

/-- Modelled from the spec: parsing a textual CPU-feature selector (the
FromStr impl producing ParseCpuFeatureError), whose body is missing from the
repository.  The selector must be a bare identifier, optionally prefixed
with an enable/disable marker; an empty or structurally invalid remainder is
malformed syntax, an identifier not matching any known feature is an unknown
feature name.  The error carries the unparsed remainder verbatim. -/
def parseCpuFeature (s : String) : Except ParseCpuFeatureError String :=
  let body := stripFeatureMarker s
  if body.data = [] then
    Except.error { offendingText := body, reason := FeatureParseReason.malformedSyntax }
  else if body.data.all isFeatureChar then
    if cpuFeatureNames.contains body then
      Except.ok body
    else
      Except.error { offendingText := body, reason := FeatureParseReason.unknownFeatureName }
  else
    Except.error { offendingText := body, reason := FeatureParseReason.malformedSyntax }

/-- The fixed eight-byte WebAssembly module header: magic then version. -/
def wasmHeader : List Nat := [0x00, 0x61, 0x73, 0x6d, 0x01, 0x00, 0x00, 0x00]

/-- Offset of the first byte of the stream that differs from (or truncates)
the expected prefix, counting from the given base. -/
def firstMismatch : List Nat → List Nat → Nat → Option Nat
  | [], _, _ => none
  | _ :: _, [], i => some i
  | e :: es, b :: bs, i => if b = e then firstMismatch es bs (i + 1) else some i

/-- Offset of the first body byte that is not a valid encoding byte,
counting from the given base. -/
def firstBadBody : List Nat → Nat → Option Nat
  | [], _ => none
  | b :: bs, i => if b < 0xC0 then firstBadBody bs (i + 1) else some i

/-- Modelled from the spec: the decoding/translation stage, whose body is
missing from the repository (the spec keeps the full parser out of scope but
requires that decoding signal failures exclusively via TranslationError with
the byte offset populated, deterministically in the input stream).  The
model checks the module header and then scans the body for an invalid
encoding byte, reporting the byte offset of the first fault. -/
def decode (bytes : List Nat) : WasmResult (List Nat) :=
  match firstMismatch wasmHeader bytes 0 with
  | some i =>
      Except.error
        { kind := WasmErrorKind.invalidEncoding, message := "invalid wasm header",
          offset := some i, index := none }
  | none =>
      match firstBadBody (bytes.drop 8) 8 with
      | some i =>
          Except.error
            { kind := WasmErrorKind.invalidEncoding, message := "invalid opcode byte",
              offset := some i, index := none }
      | none => Except.ok (bytes.drop 8)

/-- Modelled from the spec: a registered middleware pass, with the name it
declares at registration time and its native transformation, which may fail
with a native message. -/
structure Pass where
  name : String
  run : List Nat → Except String (List Nat)

/-- Modelled from the spec: the ordered middleware pipeline, whose body is
missing from the repository.  Passes run sequentially; the first failing
pass halts the pipeline and its native failure is wrapped in a
MiddlewareError recording the pass name.  The second component is the trace
of the names of the passes that were actually invoked, in order. -/
def runPipeline : List Pass → List Nat → Except MiddlewareError (List Nat) × List String
  | [], m => (Except.ok m, [])
  | p :: ps, m =>
      match p.run m with
      | Except.error msg => (Except.error { name := p.name, message := msg, source := none }, [p.name])
      | Except.ok m2 =>
          let r := runPipeline ps m2
          (r.1, p.name :: r.2)

/-- Modelled from the spec: resolve a list of feature selector strings,
failing on the first malformed one. -/
def resolveFeatures : List String → Except ParseCpuFeatureError (List String)
  | [] => Except.ok []
  | s :: ss =>
      match parseCpuFeature s with
      | Except.error e => Except.error e
      | Except.ok f =>
          match resolveFeatures ss with
          | Except.error e => Except.error e
          | Except.ok fs => Except.ok (f :: fs)

/-- Modelled from the spec: the public compilation entry point, whose body
is missing from the repository.  Configuration resolution, decoding and the
middleware pipeline each convert their leaf error into a CompileError at the
boundary; the success and error values of every stage pass through the
stated conversions and nothing else. -/
def compile (features : List String) (bytes : List Nat) (passes : List Pass) :
    Except CompileError (List Nat) :=
  match resolveFeatures features with
  | Except.error f => Except.error (CompileError.fromParseCpuFeatureError f)
  | Except.ok _ =>
      match decode bytes with
      | Except.error w => Except.error (CompileError.fromWasmError w)
      | Except.ok m =>
          match (runPipeline passes m).1 with
          | Except.error me => Except.error (CompileError.fromMiddlewareError me)
          | Except.ok m2 => Except.ok m2

/-- Rendering of a WasmErrorKind, the stage-specific cause label. -/
def WasmErrorKind.render : WasmErrorKind → String
  | WasmErrorKind.unsupportedFeature => "unsupported feature"
  | WasmErrorKind.invalidEncoding => "invalid encoding"
  | WasmErrorKind.invalidIndex => "invalid index"
  | WasmErrorKind.implLimitExceeded => "implementation limit exceeded"
  | WasmErrorKind.userAbort => "user-triggered abort"

/-- Modelled from the spec: the human-readable rendering of a
TranslationError; it always includes the kind and, when available, the byte
offset and index, then the message. -/
def WasmError.render (e : WasmError) : String :=
  e.kind.render ++
    (match e.offset with
     | some o => " at offset " ++ Nat.repr o
     | none => "") ++
    (match e.index with
     | some i => ", function #" ++ Nat.repr i
     | none => "") ++
    ": " ++ e.message

/-- Modelled from the spec: the rendering of a ParseCpuFeatureError, naming
the sub-reason and the offending substring verbatim. -/
def ParseCpuFeatureError.render (e : ParseCpuFeatureError) : String :=
  (match e.reason with
   | FeatureParseReason.unknownFeatureName => "unknown feature name: "
   | FeatureParseReason.malformedSyntax => "malformed syntax: ") ++ e.offendingText

/-- Modelled from the spec: the rendering of a MiddlewareError, naming the
responsible pass and its unaltered message. -/
def MiddlewareError.render (e : MiddlewareError) : String :=
  "middleware pass " ++ e.name ++ " failed: " ++ e.message

/-- Modelled from the spec: CompileError's display concatenates the active
variant's rendering verbatim, with no re-wording. -/
def CompileError.render : CompileError → String
  | CompileError.Validate w => w.render
  | CompileError.Wasm w => w.render
  | CompileError.Middleware m => m.render
  | CompileError.Features f => f.render
  | CompileError.Resource msg => msg

/-- The kind of a rustdoc sidebar item: enum, struct or type alias. -/
inductive SidebarItemKind where
  | enumItem
  | structItem
  | typeItem
deriving DecidableEq

/-- The sidebar declaration of the error module, embedded from
src/crates/wasmer_compiler/error/sidebar-items.js: each exported item with
its kind, name and documentation line, in the order the file lists them. -/
def errorSidebarItems : List (SidebarItemKind × String × String) :=
  [(SidebarItemKind.enumItem, "CompileError",
    "The WebAssembly.CompileError object indicates an error during WebAssembly decoding or validation."),
   (SidebarItemKind.enumItem, "ParseCpuFeatureError",
    "The error that can happen while parsing a `str` to retrieve a `CpuFeature`."),
   (SidebarItemKind.enumItem, "WasmError",
    "A WebAssembly translation error."),
   (SidebarItemKind.structItem, "MiddlewareError",
    "A error in the middleware."),
   (SidebarItemKind.typeItem, "WasmResult",
    "A convenient alias for a `Result` that uses `WasmError` as the error type.")]

/-- The correspondence the spec's taxonomy asserts between spec type names
and the exported code items. -/
def specTypeToCodeItem : List (String × String) :=
  [("TranslationError", "WasmError"),
   ("FeatureParseError", "ParseCpuFeatureError"),
   ("CompileResult", "WasmResult"),
   ("CompileError", "CompileError"),
   ("MiddlewareError", "MiddlewareError")]

/-- C1: for every TranslationError value (realized as WasmError), converting
it into a CompileError and then extracting the underlying payload yields
kind, byte offset, and index equal to the original: the conversion is a
lossless round-trip. -/
theorem wasmError_compileError_roundtrip (w : WasmError) :
    ∃ w2, (CompileError.fromWasmError w).wasmPayload = some w2 ∧
      w2.kind = w.kind ∧ w2.offset = w.offset ∧ w2.index = w.index :=
  ⟨w, rfl, rfl, rfl, rfl⟩

/-- C2: the conversions from each leaf error type (WasmError,
MiddlewareError, ParseCpuFeatureError) into CompileError are total Lean
functions, each resulting CompileError returns the original leaf unchanged
through its variant's structured accessor (nothing dropped), and every
CompileError has exactly one populated variant. -/
theorem compileError_conversions_total_lossless :
    (∀ w : WasmError, (CompileError.fromWasmError w).wasmPayload = some w ∧
      (CompileError.fromWasmError w).populatedVariants = 1) ∧
    (∀ m : MiddlewareError, (CompileError.fromMiddlewareError m).middlewarePayload = some m ∧
      (CompileError.fromMiddlewareError m).populatedVariants = 1) ∧
    (∀ f : ParseCpuFeatureError, (CompileError.fromParseCpuFeatureError f).featuresPayload = some f ∧
      (CompileError.fromParseCpuFeatureError f).populatedVariants = 1) ∧
    (∀ e : CompileError, e.populatedVariants = 1) := by
  refine ⟨fun w => ⟨rfl, rfl⟩, fun m => ⟨rfl, rfl⟩, fun f => ⟨rfl, rfl⟩, fun e => ?_⟩
  cases e <;> rfl

/-- C3: a MiddlewareError built from pass name P and message M reports pass
name exactly P and message exactly M, and the wrapped cause chain of any
MiddlewareError is at most one level deep. -/
theorem middlewareError_reports_and_shallow (P M : String) :
    (MiddlewareError.new P M).name = P ∧ (MiddlewareError.new P M).message = M ∧
    ∀ e : MiddlewareError, e.causeDepth ≤ 1 := by
  refine ⟨rfl, rfl, fun e => ?_⟩
  cases h : e.source <;> simp [MiddlewareError.causeDepth, h]

/-- C6: parsing the empty feature string fails with reason malformed
syntax, never unknown feature name. -/
theorem parseCpuFeature_empty_malformed :
    parseCpuFeature "" =
      Except.error { offendingText := "", reason := FeatureParseReason.malformedSyntax } := rfl

/-- C5: whenever parsing a CPU-feature selector string fails, the error's
offending-text field is exactly the unparsed substring of the input (the
input with its optional enable/disable marker stripped). -/
theorem parseCpuFeature_offending_exact (s : String) (e : ParseCpuFeatureError)
    (h : parseCpuFeature s = Except.error e) :
    e.offendingText = stripFeatureMarker s := by
  simp only [parseCpuFeature] at h
  split at h
  · cases h; rfl
  · split at h
    · split at h
      · cases h
      · cases h; rfl
    · cases h; rfl

/-- Witness for C5: the input "+unknwn" fails with reason unknown feature
name and offending text "unknwn", which is exactly the marker-stripped
substring. -/
theorem parseCpuFeature_offending_exact_witness :
    parseCpuFeature "+unknwn" =
      Except.error { offendingText := "unknwn",
                     reason := FeatureParseReason.unknownFeatureName } ∧
    ({ offendingText := "unknwn",
       reason := FeatureParseReason.unknownFeatureName } :
      ParseCpuFeatureError).offendingText = stripFeatureMarker "+unknwn" :=
  ⟨rfl, parseCpuFeature_offending_exact "+unknwn" _ rfl⟩

/-- C4: once the middleware pipeline fails within a prefix of the ordered
pass list, appending any further passes changes neither the outcome nor the
trace of invoked pass names: no pass after the failing one is ever invoked
in that compilation attempt. -/
theorem pipeline_halts_at_first_failure (ps1 ps2 : List Pass) (m : List Nat)
    (e : MiddlewareError) (h : (runPipeline ps1 m).1 = Except.error e) :
    runPipeline (ps1 ++ ps2) m = runPipeline ps1 m := by
  induction ps1 generalizing m with
  | nil => simp [runPipeline] at h
  | cons p ps ih =>
    simp only [List.cons_append, runPipeline] at h ⊢
    cases hr : p.run m with
    | error msg => simp [hr]
    | ok m2 =>
      rw [hr] at h
      simp only at h
      simp only [hr]
      simp only [List.append_eq, ih m2 h]

/-- Helper for the C4 witness: a pass that succeeds without changing the
module. -/
def identityPass : Pass :=
  { name := "pass1", run := fun m => Except.ok m }

/-- Helper for the C4 witness: a pass instrumented to fail. -/
def instrumentedFailingPass : Pass :=
  { name := "pass2", run := fun _ => Except.error "instrumented failure" }

/-- Helper for the C4 witness: the pass that must record zero invocations. -/
def mustNotRunPass : Pass :=
  { name := "pass3", run := fun m => Except.ok m }

/-- Witness for C4: with an ordered pass list where pass 2 is instrumented
to fail, the pipeline over passes 1 and 2 fails, appending pass 3 leaves the
run unchanged, and the trace of invoked passes is exactly pass 1 then
pass 2, so pass 3 records zero invocations. -/
theorem pipeline_halts_at_first_failure_witness :
    (runPipeline [identityPass, instrumentedFailingPass] []).1 =
      Except.error { name := "pass2", message := "instrumented failure", source := none } ∧
    runPipeline ([identityPass, instrumentedFailingPass] ++ [mustNotRunPass]) [] =
      runPipeline [identityPass, instrumentedFailingPass] [] ∧
    (runPipeline ([identityPass, instrumentedFailingPass] ++ [mustNotRunPass]) []).2 =
      ["pass1", "pass2"] :=
  ⟨rfl,
   pipeline_halts_at_first_failure [identityPass, instrumentedFailingPass] [mustNotRunPass] []
     { name := "pass2", message := "instrumented failure", source := none } rfl,
   rfl⟩

/-- C7: every call of the public compilation entry point either succeeds or
returns an error of type CompileError obtained through one of the boundary
conversions from a leaf error; no bare WasmError, MiddlewareError or
ParseCpuFeatureError value reaches the caller. -/
theorem compile_error_surface_is_CompileError (fs : List String) (bytes : List Nat)
    (ps : List Pass) :
    (∃ m, compile fs bytes ps = Except.ok m) ∨
    (∃ f, compile fs bytes ps = Except.error (CompileError.fromParseCpuFeatureError f)) ∨
    (∃ w, compile fs bytes ps = Except.error (CompileError.fromWasmError w)) ∨
    (∃ me, compile fs bytes ps = Except.error (CompileError.fromMiddlewareError me)) := by
  cases hf : resolveFeatures fs with
  | error f => exact Or.inr (Or.inl ⟨f, by simp [compile, hf]⟩)
  | ok l =>
    cases hd : decode bytes with
    | error w => exact Or.inr (Or.inr (Or.inl ⟨w, by simp [compile, hf, hd]⟩))
    | ok m =>
      cases hp : (runPipeline ps m).1 with
      | error me => exact Or.inr (Or.inr (Or.inr ⟨me, by simp [compile, hf, hd, hp]⟩))
      | ok m2 => exact Or.inl ⟨m2, by simp [compile, hf, hd, hp]⟩

/-- A byte stream whose first invalid byte sits at byte offset 42: the
eight-byte header, thirty-four valid body bytes, then an invalid byte. -/
def offset42Stream : List Nat := wasmHeader ++ List.replicate 34 0 ++ [0xC0]

/-- C8: the display rendering of every CompileError equals the active
variant's own rendering verbatim, and a compilation failing during decoding
at byte offset 42 yields a CompileError whose rendering contains "42" and
whose structured accessor returns offset 42. -/
theorem compileError_render_verbatim_and_offset42 :
    (∀ w, (CompileError.Validate w).render = w.render) ∧
    (∀ w, (CompileError.Wasm w).render = w.render) ∧
    (∀ m, (CompileError.Middleware m).render = m.render) ∧
    (∀ f, (CompileError.Features f).render = f.render) ∧
    (∀ s, (CompileError.Resource s).render = s) ∧
    (∃ e, compile [] offset42Stream [] = Except.error e ∧
      e.offsetOf = some 42 ∧ "42".data <:+: e.render.data) := by
  refine ⟨fun w => rfl, fun w => rfl, fun m => rfl, fun f => rfl, fun s => rfl, ?_⟩
  refine ⟨CompileError.Wasm
    { kind := WasmErrorKind.invalidEncoding, message := "invalid opcode byte",
      offset := some 42, index := none }, rfl, rfl, ?_⟩
  exact ⟨"invalid encoding at offset ".data, ": invalid opcode byte".data, by decide⟩

/-- C9: decoding is deterministic: the outcome of decoding a byte stream is
a function of the stream alone, so two runs on the same stream either both
succeed with the same result or both fail with the same kind, offset, index
and message. -/
theorem decode_deterministic (s : List Nat) :
    (∀ t1 t2, decode s = Except.ok t1 → decode s = Except.ok t2 → t1 = t2) ∧
    (∀ e1 e2, decode s = Except.error e1 → decode s = Except.error e2 →
      e1.kind = e2.kind ∧ e1.offset = e2.offset ∧ e1.index = e2.index ∧
      e1.message = e2.message) := by
  constructor
  · intro t1 t2 h1 h2
    rw [h1] at h2
    exact (Except.ok.inj h2)
  · intro e1 e2 h1 h2
    rw [h1] at h2
    rw [Except.error.inj h2]
    exact ⟨rfl, rfl, rfl, rfl⟩

/-- Witness for C9: the empty byte stream fails decoding, and the theorem
applied to two runs of it yields agreement of all four error components. -/
theorem decode_deterministic_witness :
    decode [] = Except.error
      { kind := WasmErrorKind.invalidEncoding, message := "invalid wasm header",
        offset := some 0, index := none } ∧
    ({ kind := WasmErrorKind.invalidEncoding, message := "invalid wasm header",
       offset := some 0, index := none } : WasmError).kind = WasmErrorKind.invalidEncoding :=
  ⟨rfl,
   ((decode_deterministic []).2
     { kind := WasmErrorKind.invalidEncoding, message := "invalid wasm header",
       offset := some 0, index := none }
     { kind := WasmErrorKind.invalidEncoding, message := "invalid wasm header",
       offset := some 0, index := none } rfl rfl).1⟩

/-- C10: the exported surface of the error module is exactly the five items
of the sidebar, with the kinds the claim names: the enums CompileError,
ParseCpuFeatureError and WasmError, the struct MiddlewareError (a single
constructor shape, not variants) and the type alias WasmResult, whose error
type is WasmError; each spec type name corresponds to exactly one exported
item and the correspondence covers all exported items with no leftovers. -/
theorem error_module_export_surface :
    errorSidebarItems.length = 5 ∧
    errorSidebarItems.map (fun it => (it.1, it.2.1)) =
      [(SidebarItemKind.enumItem, "CompileError"),
       (SidebarItemKind.enumItem, "ParseCpuFeatureError"),
       (SidebarItemKind.enumItem, "WasmError"),
       (SidebarItemKind.structItem, "MiddlewareError"),
       (SidebarItemKind.typeItem, "WasmResult")] ∧
    (specTypeToCodeItem.map Prod.snd).Perm (errorSidebarItems.map (fun it => it.2.1)) ∧
    (specTypeToCodeItem.map Prod.fst).Nodup ∧
    (specTypeToCodeItem.map Prod.snd).Nodup ∧
    (∀ T, WasmResult T = Except WasmError T) ∧
    (∀ m : MiddlewareError, m = ⟨m.name, m.message, m.source⟩) := by
  refine ⟨rfl, rfl, by decide, by decide, by decide, fun T => rfl, fun m => rfl⟩
